import Mathlib

/-!
# CollectorDashboard (frontend/src/pages/collecterdashboard.js)

A shallow embedding of the React component `CollectorDashboard`:

* the component state (`requests`, `error`, `isLoading`) together with the
  ambient collaborators the handlers touch (`localStorage`, the HTTP calls
  issued through axios, `alert`, `navigate`) is one record, `World`;
* every `async` handler is split at its single `await` into the part that
  runs at the call (`…_call`) and the continuation that runs when the promise
  settles (`…_settle`); the continuation of `handleCompleteRequest` closes over
  the `requests` binding of the render in which the handler was created;
* the JSX is embedded as data: the children handed to the map and the
  loading / error / list selection.
-/

namespace CollectorDashboard

/-! ## JavaScript values -/

/-- The JavaScript values a JSON field can hold here. An absent property reads
as `undefined`. A number is held as the text ToString gives for it (`0` for
both zeros, `NaN`, `2.5`, `-7`, `1e+21`, …): that text fixes everything the
component observes of a number, namely whether it is falsy and how it
prints. -/
inductive JSVal where
  | undefined
  | null
  | bool (b : Bool)
  | num (text : String)
  | str (s : String)
  deriving DecidableEq, Repr

namespace JSVal

/-- ToBoolean: what `if (v)`, `v && …`, `v || …` and `v ? … : …` test. The
falsy numbers are the two zeros and NaN, the ones that print as `0` and
`NaN`. -/
def truthy : JSVal → Bool
  | undefined => false
  | null => false
  | bool b => b
  | num text => !(text == "0" || text == "NaN")
  | str s => !(s == "")

/-- The operator `a || b`. -/
def or (a b : JSVal) : JSVal := if a.truthy then a else b

/-- The operator `a && b`. -/
def and (a b : JSVal) : JSVal := if a.truthy then b else a

/-- ToString, as applied by `'…' + v` and by template literals. -/
def toStr : JSVal → String
  | undefined => "undefined"
  | null => "null"
  | bool true => "true"
  | bool false => "false"
  | num text => text
  | str s => s

/-- The text React puts in the DOM for a child `{v}`: nothing for `undefined`,
`null` and booleans, the text itself for strings and numbers. -/
def childText : JSVal → String
  | undefined => ""
  | null => ""
  | bool _ => ""
  | num text => text
  | str s => s

end JSVal

/-! ## Data model -/

/-- The object `request.user`. -/
structure User where
  name : String
  deriving DecidableEq, Repr

/-- One element of `response.data`. -/
structure Request where
  _id : String
  user : User
  address : String
  status : String
  addressLat : JSVal
  addressLng : JSVal
  weight : JSVal
  recycleWeight : JSVal
  refund : JSVal
  deriving DecidableEq, Repr

/-- The body of an error response, `error.response.data`: either a primitive
(no body, a text body) or an object, given by the value of its `message`
property (`undefined` when it has none). -/
inductive ResponseData where
  | prim (v : JSVal)
  | object (message : JSVal)
  deriving DecidableEq, Repr

/-- The object `error.response`. -/
structure ErrorResponse where
  data : ResponseData
  deriving DecidableEq, Repr

/-- The value caught by `catch (error)`: `error.message` is the transport
message, `error.response` is absent when no response was received. -/
structure RequestError where
  message : String
  response : Option ErrorResponse
  deriving DecidableEq, Repr

/-- The expression `data?.message`. -/
def ResponseData.message : ResponseData → JSVal
  | .prim _ => .undefined
  | .object message => message

/-- The expression `error.response?.data?.message`. -/
def serverMessage (error : RequestError) : JSVal :=
  match error.response with
  | none => .undefined
  | some response => response.data.message

/-- The expression `(error.response?.data?.message || error.message)` as it is
appended to a string. -/
def errorDetail (error : RequestError) : String :=
  ((serverMessage error).or (.str error.message)).toStr

/-- One call made through axios. -/
structure HttpCall where
  method : String
  url : String
  authorization : String
  deriving DecidableEq, Repr

/-- The component state and the collaborators its handlers act on. The lists
`network`, `alerts` and `navigation` record the effects, oldest first. -/
structure World where
  requests : List Request
  error : String
  isLoading : Bool
  localStorage : List (String × String)
  network : List HttpCall
  alerts : List String
  navigation : List String
  deriving DecidableEq, Repr

/-- The call `localStorage.getItem(key)`; `none` is `null`. -/
def getItem (storage : List (String × String)) (key : String) : Option String :=
  storage.lookup key

/-- The call `localStorage.removeItem(key)`. -/
def removeItem (storage : List (String × String)) (key : String) : List (String × String) :=
  storage.filter (fun entry => entry.1 != key)

/-- The template literal for the `Authorization` header; a `null` credential is
spelled out as the text `null`. -/
def bearer (credential : Option String) : String :=
  "Bearer " ++ (match credential with
    | some t => t
    | none => "null")

/-- The address of the confirmed-requests endpoint. -/
def confirmedUrl : String := "http://localhost:4000/api/collector/requests/confirmed"

/-- The address of the completion endpoint of one request. -/
def completeUrl (requestId : String) : String :=
  "http://localhost:4000/api/collector/requests/" ++ requestId ++ "/complete"

/-! ## Mount and the initial load -/

/-- The state of the three `useState` hooks at the first render. -/
def initialWorld (storage : List (String × String)) : World :=
  { requests := []
    error := ""
    isLoading := true
    localStorage := storage
    network := []
    alerts := []
    navigation := [] }

/-- The part of `fetchConfirmedRequests` up to its `await`: read the credential and
issue the GET. -/
def fetchConfirmedRequests_call (w : World) : World :=
  let credential := getItem w.localStorage "token"
  { w with network := w.network ++ [⟨"GET", confirmedUrl, bearer credential⟩] }

/-- The rest of `fetchConfirmedRequests`, run when the GET settles. -/
def fetchConfirmedRequests_settle (res : Except RequestError (List Request)) (w : World) : World :=
  match res with
  | .ok data => { w with requests := data, isLoading := false }
  | .error error =>
    { w with error := "Error fetching confirmed requests: " ++ errorDetail error, isLoading := false }

/-- The effect hook with the empty dependency list: runs once, after the first
render. -/
def mount (storage : List (String × String)) : World :=
  fetchConfirmedRequests_call (initialWorld storage)

/-! ## Handlers -/

/-- The handler `handleRequestClick`. -/
def handleRequestClick (requestId : String) (w : World) : World :=
  { w with navigation := w.navigation ++ ["/collector/request/" ++ requestId ++ "/map"] }

/-- A call of `handleCompleteRequest` suspended at its `await`: the argument and
the `requests` binding of the render whose handler was invoked. -/
structure PendingComplete where
  requests : List Request
  requestId : String
  deriving DecidableEq, Repr

/-- The part of `handleCompleteRequest` up to its `await`: read the credential and
issue the PUT. The handler invoked is the one of the current render, so it
closes over the current `requests`. -/
def handleCompleteRequest_call (requestId : String) (w : World) : World × PendingComplete :=
  let credential := getItem w.localStorage "token"
  ({ w with network := w.network ++ [⟨"PUT", completeUrl requestId, bearer credential⟩] },
   ⟨w.requests, requestId⟩)

/-- The rest of `handleCompleteRequest`, run when the PUT settles. -/
def handleCompleteRequest_settle (p : PendingComplete) (res : Except RequestError Unit)
    (w : World) : World :=
  match res with
  | .ok _ =>
    let updatedRequests := p.requests.filter (fun request => request._id != p.requestId)
    { w with alerts := w.alerts ++ ["Request marked as complete"], requests := updatedRequests }
  | .error error =>
    { w with error := "Error completing request: " ++ errorDetail error }

/-- A call of `handleCompleteRequest` whose PUT settles before anything else
happens. -/
def handleCompleteRequest (requestId : String) (res : Except RequestError Unit) (w : World) : World :=
  handleCompleteRequest_settle (handleCompleteRequest_call requestId w).2 res
    (handleCompleteRequest_call requestId w).1

/-- The handler `handleLogout`. -/
def handleLogout (w : World) : World :=
  { w with localStorage := removeItem w.localStorage "token"
           navigation := w.navigation ++ ["/login"] }

/-! ## Render -/

/-- A `Marker` element with its `Popup`. -/
structure Marker where
  key : String
  position : JSVal × JSVal
  userName : String
  address : String
  status : String
  deriving DecidableEq, Repr

/-- The marker built for a request in the first branch of the `if`. -/
def markerOf (request : Request) : Marker :=
  { key := request._id
    position := (request.addressLat, request.addressLng)
    userName := request.user.name
    address := request.address
    status := request.status }

/-- The callback of `requests.map` under the map container: a marker, or `null`. -/
def markerChild (request : Request) : Option Marker :=
  let lat := request.addressLat
  let lng := request.addressLng
  if (lat.and lng).truthy then some (markerOf request) else none

/-- The children handed to the map container, one per request. -/
def markerChildren (requests : List Request) : List (Option Marker) :=
  requests.map markerChild

/-- The markers on the map: React renders a `null` child as nothing. -/
def markers (requests : List Request) : List Marker :=
  (markerChildren requests).filterMap id

/-- The lines written by `console.warn` during one render of the map. -/
def markerWarnings (requests : List Request) : List String :=
  requests.filterMap (fun request =>
    if (request.addressLat.and request.addressLng).truthy then none
    else some ("Invalid coordinates for request ID: " ++ request._id))

/-- One card of the list. `completeDisabled` is the `disabled` attribute of
the checkbox and of the Mark Complete button. -/
structure Card where
  key : String
  userName : String
  address : String
  status : String
  weight : JSVal
  recycleWeight : JSVal
  refund : JSVal
  completeDisabled : Bool
  deriving DecidableEq, Repr

/-- The callback of `requests.map` in the list. -/
def cardOf (request : Request) : Card :=
  { key := request._id
    userName := request.user.name
    address := request.address
    status := request.status
    weight := request.weight.or (.str "N/A")
    recycleWeight := request.recycleWeight.or (.str "N/A")
    refund := request.refund.or (.str "N/A")
    completeDisabled := request.status == "Completed" }

/-- What is rendered below the map. -/
inductive View where
  | loading
  | errorText (text : String)
  | noRequests
  | cards (cs : List Card)
  deriving DecidableEq, Repr

/-- The conditional `isLoading ? … : error ? … : (…)` of the render. -/
def view (w : World) : View :=
  if w.isLoading then .loading
  else if !(w.error == "") then .errorText w.error
  else if w.requests.length == 0 then .noRequests
  else .cards (w.requests.map cardOf)

/-- The cards a view contains. -/
def View.cardList : View → List Card
  | .cards cs => cs
  | _ => []

/-! ## Runs of the component -/

/-- What can happen to a mounted component. -/
inductive Event where
  | loadSettled (res : Except RequestError (List Request))
  | completeSettled (p : PendingComplete) (res : Except RequestError Unit)
  | completeRequest (requestId : String) (res : Except RequestError Unit)
  | requestClick (requestId : String)
  | logout

/-- One event. -/
def step (w : World) : Event → World
  | .loadSettled res => fetchConfirmedRequests_settle res w
  | .completeSettled p res => handleCompleteRequest_settle p res w
  | .completeRequest requestId res => handleCompleteRequest requestId res w
  | .requestClick requestId => handleRequestClick requestId w
  | .logout => handleLogout w

/-- A sequence of events, in order. -/
def run (w : World) (events : List Event) : World :=
  events.foldl step w

/-- Two calls of `handleCompleteRequest`, for `a` and then for `b`, both started
before either PUT settles; then both PUTs resolve, the one for `a` first. -/
def completeBothInOrder (a b : String) (w : World) : World :=
  let first := handleCompleteRequest_call a w
  let second := handleCompleteRequest_call b first.1
  handleCompleteRequest_settle second.2 (.ok ())
    (handleCompleteRequest_settle first.2 (.ok ()) second.1)

/-- The same two calls, the PUT for `b` resolving first. -/
def completeBothReversed (a b : String) (w : World) : World :=
  let first := handleCompleteRequest_call a w
  let second := handleCompleteRequest_call b first.1
  handleCompleteRequest_settle first.2 (.ok ())
    (handleCompleteRequest_settle second.2 (.ok ()) second.1)

/-! ## Wording of the specification -/

/-- A coordinate that is "present and non-null", as the specification words it. -/
def presentNonNull (v : JSVal) : Bool :=
  v != .undefined && v != .null

/-- The number of requests "with both coordinates present and non-null", as the
specification words it. -/
def countWithCoordinates (requests : List Request) : Nat :=
  (requests.filter (fun request =>
    presentNonNull request.addressLat && presentNonNull request.addressLng)).length

/-! ## Sample data -/

/-- A request with the given id and coordinates and no optional field. -/
def sampleRequest (id : String) (lat lng : JSVal) : Request :=
  { _id := id
    user := ⟨"Asha"⟩
    address := "12 Lake Road"
    status := "Confirmed"
    addressLat := lat
    addressLng := lng
    weight := .undefined
    recycleWeight := .undefined
    refund := .undefined }

/-- The request "R1" of the specification. -/
def r1 : Request := sampleRequest "R1" (.num "6.9271") (.num "79.8612")

/-- The request "R2" of the specification. -/
def r2 : Request := sampleRequest "R2" (.num "7.2906") (.num "80.6337")

/-- A world in the Ready state holding the given list. -/
def readyWorld (requests : List Request) : World :=
  { requests := requests
    error := ""
    isLoading := false
    localStorage := [("token", "abc")]
    network := [⟨"GET", confirmedUrl, "Bearer abc"⟩]
    alerts := []
    navigation := [] }

/-- A 401 response whose body carries the given `message`. -/
def serverError (message : JSVal) : RequestError :=
  { message := "Request failed with status code 401"
    response := some ⟨.object message⟩ }

/-- A failure without a response. -/
def networkError : RequestError :=
  { message := "Network Error", response := none }

/-- The three optional fields of a card. -/
inductive OptionalField where
  | weight
  | recycleWeight
  | refund
  deriving DecidableEq, Repr

/-- The value of an optional field in a request. -/
def Request.field (request : Request) : OptionalField → JSVal
  | .weight => request.weight
  | .recycleWeight => request.recycleWeight
  | .refund => request.refund

/-- The child shown for an optional field in a card. -/
def Card.field (card : Card) : OptionalField → JSVal
  | .weight => card.weight
  | .recycleWeight => card.recycleWeight
  | .refund => card.refund

/-! ## Auxiliary facts -/

theorem append_ne_empty (a b : String) (h : a ≠ "") : a ++ b ≠ "" := by
  intro hab
  apply h
  have hd : (a ++ b).data = [] := by rw [hab]
  rw [String.data_append] at hd
  have ha : a.data = [] := (List.append_eq_nil.mp hd).1
  exact String.ext ha

theorem lookup_filter_ne (storage : List (String × String)) (key : String) :
    (storage.filter (fun entry => entry.1 != key)).lookup key = none := by
  induction storage with
  | nil => rfl
  | cons entry rest ih =>
    obtain ⟨k, v⟩ := entry
    rw [List.filter_cons]
    by_cases hk : k = key
    · have hb : (k != key) = false := by simp [hk]
      simp only [hb]
      exact ih
    · have hb : (k != key) = true := by simp [hk]
      have hk2 : (key == k) = false := by
        simp only [beq_eq_false_iff_ne, ne_eq]
        exact fun h => hk h.symm
      simp only [hb, if_true, List.lookup, hk2]
      exact ih

theorem errorDetail_eq (error : RequestError) :
    errorDetail error =
      if (serverMessage error).truthy then (serverMessage error).toStr else error.message := by
  unfold errorDetail JSVal.or
  split <;> rfl

theorem errorDetail_of_str (error : RequestError) (m : String) (hm : m ≠ "")
    (h : serverMessage error = .str m) : errorDetail error = m := by
  rw [errorDetail_eq, h]
  simp [JSVal.truthy, JSVal.toStr, hm]

theorem errorDetail_of_falsy (error : RequestError) (h : (serverMessage error).truthy = false) :
    errorDetail error = error.message := by
  rw [errorDetail_eq, h]
  simp

theorem filter_R1_of_ids (L : List Request)
    (h : L.map (fun request => request._id) = ["R1", "R2"]) :
    (L.filter (fun request => request._id != "R1")).map (fun request => request._id) = ["R2"] := by
  rcases L with _ | ⟨a, _ | ⟨b, _ | ⟨c, t⟩⟩⟩
  · simp at h
  · simp at h
  · simp only [List.map_cons, List.map_nil, List.cons.injEq, and_true] at h
    have ha : (a._id != "R1") = false := by rw [h.1]; decide
    have hb : (b._id != "R1") = true := by rw [h.2]; decide
    simp only [List.filter, ha, hb, List.map_cons, List.map_nil]
    rw [h.2]
  · simp at h

theorem step_error_ne_empty (w : World) (ev : Event) (h : w.error ≠ "") :
    (step w ev).error ≠ "" := by
  cases ev with
  | loadSettled res =>
    cases res with
    | ok data => exact h
    | error e => exact append_ne_empty _ _ (by decide)
  | completeSettled p res =>
    cases res with
    | ok u => exact h
    | error e => exact append_ne_empty _ _ (by decide)
  | completeRequest requestId res =>
    cases res with
    | ok u => exact h
    | error e => exact append_ne_empty _ _ (by decide)
  | requestClick requestId => exact h
  | logout => exact h

theorem step_isLoading_false (w : World) (ev : Event) (h : w.isLoading = false) :
    (step w ev).isLoading = false := by
  cases ev with
  | loadSettled res => cases res <;> rfl
  | completeSettled p res => cases res <;> exact h
  | completeRequest requestId res => cases res <;> exact h
  | requestClick requestId => exact h
  | logout => exact h

theorem run_error_ne_empty (events : List Event) (w : World) (h : w.error ≠ "") :
    (run w events).error ≠ "" := by
  induction events generalizing w with
  | nil => exact h
  | cons ev rest ih => exact ih (step w ev) (step_error_ne_empty w ev h)

theorem run_isLoading_false (events : List Event) (w : World) (h : w.isLoading = false) :
    (run w events).isLoading = false := by
  induction events generalizing w with
  | nil => exact h
  | cons ev rest ih => exact ih (step w ev) (step_isLoading_false w ev h)

theorem view_of_error (w : World) (hl : w.isLoading = false) (he : w.error ≠ "") :
    view w = .errorText w.error := by
  unfold view
  simp [hl, he]

theorem run_append_single (w : World) (events : List Event) (ev : Event) :
    run w (events ++ [ev]) = step (run w events) ev := by
  unfold run
  rw [List.foldl_append]
  rfl

theorem markers_cons (request : Request) (rest : List Request) :
    markers (request :: rest)
      = (match markerChild request with
          | some m => m :: markers rest
          | none => markers rest) := by
  unfold markers markerChildren
  rw [List.map_cons, List.filterMap_cons]
  cases markerChild request <;> rfl

theorem markers_append (pre post : List Request) :
    markers (pre ++ post) = markers pre ++ markers post := by
  unfold markers markerChildren
  rw [List.map_append, List.filterMap_append]

theorem position_truthy_of_mem_markers (L : List Request) (m : Marker) (h : m ∈ markers L) :
    (m.position.1.and m.position.2).truthy = true := by
  induction L with
  | nil => simp [markers, markerChildren] at h
  | cons request rest ih =>
    rw [markers_cons] at h
    by_cases hc : (request.addressLat.and request.addressLng).truthy = true
    · have hm : markerChild request = some (markerOf request) := by
        simp [markerChild, hc]
      rw [hm] at h
      rcases List.mem_cons.mp h with h1 | h1
      · rw [h1]
        exact hc
      · exact ih h1
    · have hm : markerChild request = none := by
        simp [markerChild, hc]
      rw [hm] at h
      exact ih h

theorem and_falsy_of_missing (lat lng : JSVal)
    (h : presentNonNull lat = false ∨ presentNonNull lng = false) :
    (lat.and lng).truthy = false := by
  rcases h with h | h
  · cases lat <;> simp [presentNonNull] at h <;> rfl
  · cases lng <;> simp [presentNonNull] at h <;>
      (unfold JSVal.and; split <;> simp_all [JSVal.truthy])

theorem completeBothInOrder_requests (a b : String) (w : World) :
    (completeBothInOrder a b w).requests = w.requests.filter (fun request => request._id != b) :=
  rfl

theorem completeBothReversed_requests (a b : String) (w : World) :
    (completeBothReversed a b w).requests = w.requests.filter (fun request => request._id != a) :=
  rfl

theorem markers_eq_filter_map (L : List Request) :
    markers L
      = (L.filter (fun request => (request.addressLat.and request.addressLng).truthy)).map
          markerOf := by
  induction L with
  | nil => rfl
  | cons request rest ih =>
    rw [markers_cons, List.filter_cons]
    by_cases hc : (request.addressLat.and request.addressLng).truthy = true
    · simp [markerChild, hc, ih]
    · simp [markerChild, hc, ih]

theorem failure_sets_error (w : World) (p : PendingComplete) (e : RequestError) :
    (fetchConfirmedRequests_settle (.error e) w).error ≠ ""
    ∧ (fetchConfirmedRequests_settle (.error e) w).isLoading = false
    ∧ (handleCompleteRequest_settle p (.error e) w).error ≠ ""
    ∧ (handleCompleteRequest_settle p (.error e) w).isLoading = w.isLoading :=
  ⟨append_ne_empty _ _ (by decide), rfl, append_ne_empty _ _ (by decide), rfl⟩

/-! ## Theorems -/

/-- C1: a call of `handleCompleteRequest` whose PUT resolves replaces the list by
the old list without the entries whose `_id` is the given id, the others kept
as they were and in their order; the only call it issues is the PUT (no GET);
`isLoading` and `error` are as before. From ids R1, R2, completing R1 leaves
R2. -/
theorem completeRequest_success (w : World) (r : String) :
    (handleCompleteRequest r (.ok ()) w).requests
        = w.requests.filter (fun request => request._id != r)
    ∧ (∀ x, x ∈ (handleCompleteRequest r (.ok ()) w).requests ↔ (x ∈ w.requests ∧ x._id ≠ r))
    ∧ List.Sublist (handleCompleteRequest r (.ok ()) w).requests w.requests
    ∧ (handleCompleteRequest r (.ok ()) w).network
        = w.network ++ [⟨"PUT", completeUrl r, bearer (getItem w.localStorage "token")⟩]
    ∧ (handleCompleteRequest r (.ok ()) w).network.filter (fun c => c.method == "GET")
        = w.network.filter (fun c => c.method == "GET")
    ∧ (handleCompleteRequest r (.ok ()) w).isLoading = w.isLoading
    ∧ (handleCompleteRequest r (.ok ()) w).error = w.error
    ∧ (handleCompleteRequest r (.ok ()) w).alerts = w.alerts ++ ["Request marked as complete"]
    ∧ (w.requests.map (fun request => request._id) = ["R1", "R2"] → r = "R1" →
        (handleCompleteRequest r (.ok ()) w).requests.map (fun request => request._id) = ["R2"]) := by
  have hreq : (handleCompleteRequest r (.ok ()) w).requests
      = w.requests.filter (fun request => request._id != r) := rfl
  refine ⟨hreq, ?_, ?_, rfl, ?_, rfl, rfl, rfl, ?_⟩
  · intro x
    rw [hreq, List.mem_filter]
    simp
  · rw [hreq]
    exact List.filter_sublist w.requests
  · show (w.network ++ [_]).filter _ = _
    rw [List.filter_append]
    simp [List.filter]
  · intro hids hr
    rw [hreq, hr]
    exact filter_R1_of_ids w.requests hids

/-- C1, at the specification's example: completing R1 from the list R1, R2. -/
theorem completeRequest_success_witness :
    (handleCompleteRequest "R1" (.ok ()) (readyWorld [r1, r2])).requests.map
      (fun request => request._id) = ["R2"] :=
  (completeRequest_success (readyWorld [r1, r2]) "R1").2.2.2.2.2.2.2.2 (by decide) rfl

/-- C2, as stated, fails: a 401 response to the PUT whose body carries the
empty string as `message` does not give the completion text followed by that
message; the transport message is appended although the response carries a
message. -/
theorem completeRequest_failure_empty_message :
    ¬ (∀ (w : World) (r : String) (e : RequestError) (m : String),
        serverMessage e = .str m →
        (handleCompleteRequest r (.error e) w).error = "Error completing request: " ++ m) := by
  intro h
  have h1 := h (readyWorld [r1, r2]) "R1" (serverError (.str "")) "" rfl
  revert h1
  decide

/-- C2, amended: a call of `handleCompleteRequest` whose PUT is rejected leaves the
list and `isLoading` as they were and sets `error` to "Error completing
request: " followed by the message of the response body for every non-empty
message string, and by the transport message when the body carries no message
or a falsy one. -/
theorem completeRequest_failure (w : World) (r : String) (e : RequestError) :
    (handleCompleteRequest r (.error e) w).requests = w.requests
    ∧ (handleCompleteRequest r (.error e) w).isLoading = w.isLoading
    ∧ (∀ m : String, m ≠ "" → serverMessage e = .str m →
        (handleCompleteRequest r (.error e) w).error = "Error completing request: " ++ m)
    ∧ ((serverMessage e).truthy = false →
        (handleCompleteRequest r (.error e) w).error = "Error completing request: " ++ e.message) := by
  have herr : (handleCompleteRequest r (.error e) w).error
      = "Error completing request: " ++ errorDetail e := rfl
  refine ⟨rfl, rfl, ?_, ?_⟩
  · intro m hm h
    rw [herr, errorDetail_of_str e m hm h]
  · intro h
    rw [herr, errorDetail_of_falsy e h]

/-- C2, amended, at a 401 response with message "Unauthorized" on a loaded
list. -/
theorem completeRequest_failure_witness :
    (handleCompleteRequest "R1" (.error (serverError (.str "Unauthorized"))) (readyWorld [r1, r2])).error
      = "Error completing request: " ++ "Unauthorized" :=
  (completeRequest_failure (readyWorld [r1, r2]) "R1" (serverError (.str "Unauthorized"))).2.2.1
    "Unauthorized" (by decide) rfl

/-- C4: after a successful initial load returning `S` the component is Ready
(`isLoading` false, `error` empty) with `requests` equal to `S`, and the list
shows one card per element of `S`, in the order of `S`; the load issued one
GET and nothing else. -/
theorem load_success (storage : List (String × String)) (S : List Request) :
    (fetchConfirmedRequests_settle (.ok S) (mount storage)).requests = S
    ∧ (fetchConfirmedRequests_settle (.ok S) (mount storage)).isLoading = false
    ∧ (fetchConfirmedRequests_settle (.ok S) (mount storage)).error = ""
    ∧ (view (fetchConfirmedRequests_settle (.ok S) (mount storage))).cardList = S.map cardOf
    ∧ (view (fetchConfirmedRequests_settle (.ok S) (mount storage))).cardList.length = S.length
    ∧ (view (fetchConfirmedRequests_settle (.ok S) (mount storage))).cardList.map (fun c => c.key)
        = S.map (fun request => request._id)
    ∧ (fetchConfirmedRequests_settle (.ok S) (mount storage)).network
        = [⟨"GET", confirmedUrl, bearer (getItem storage "token")⟩] := by
  have hv : (view (fetchConfirmedRequests_settle (.ok S) (mount storage))).cardList
      = S.map cardOf := by
    cases S with
    | nil => rfl
    | cons a rest => rfl
  refine ⟨rfl, rfl, rfl, hv, ?_, ?_, rfl⟩
  · rw [hv, List.length_map]
  · rw [hv, List.map_map]
    rfl

/-- C9: `handleLogout` leaves no value under the key "token", navigates to
"/login", issues no network call and leaves `requests`, `error` and
`isLoading` as they were. -/
theorem logout_clears_credential (w : World) :
    getItem (handleLogout w).localStorage "token" = none
    ∧ (handleLogout w).navigation = w.navigation ++ ["/login"]
    ∧ (handleLogout w).network = w.network
    ∧ (handleLogout w).requests = w.requests
    ∧ (handleLogout w).error = w.error
    ∧ (handleLogout w).isLoading = w.isLoading
    ∧ (handleLogout w).alerts = w.alerts :=
  ⟨lookup_filter_ne w.localStorage "token", rfl, rfl, rfl, rfl, rfl, rfl⟩

/-- C3, as stated, fails: a 401 response whose body carries the empty string as
`message` does not give the fetch text followed by that message; the
transport message is appended although the response carries a message. -/
theorem load_failure_empty_message :
    ¬ (∀ (storage : List (String × String)) (e : RequestError) (m : String),
        serverMessage e = .str m →
        (fetchConfirmedRequests_settle (.error e) (mount storage)).error
          = "Error fetching confirmed requests: " ++ m) := by
  intro h
  have h1 := h [] (serverError (.str "")) "" rfl
  revert h1
  decide

/-- C3, amended: a failed initial load ends with `isLoading` false, `requests`
still empty and `error` equal to "Error fetching confirmed requests: " followed
by the message of the response body for every non-empty message string, and by
the transport message when the body carries no message or a falsy one. -/
theorem load_failure (storage : List (String × String)) (e : RequestError) :
    (fetchConfirmedRequests_settle (.error e) (mount storage)).isLoading = false
    ∧ (fetchConfirmedRequests_settle (.error e) (mount storage)).requests = []
    ∧ view (fetchConfirmedRequests_settle (.error e) (mount storage))
        = .errorText (fetchConfirmedRequests_settle (.error e) (mount storage)).error
    ∧ (∀ m : String, m ≠ "" → serverMessage e = .str m →
        (fetchConfirmedRequests_settle (.error e) (mount storage)).error
          = "Error fetching confirmed requests: " ++ m)
    ∧ ((serverMessage e).truthy = false →
        (fetchConfirmedRequests_settle (.error e) (mount storage)).error
          = "Error fetching confirmed requests: " ++ e.message) := by
  have herr : (fetchConfirmedRequests_settle (.error e) (mount storage)).error
      = "Error fetching confirmed requests: " ++ errorDetail e := rfl
  refine ⟨rfl, rfl, ?_, ?_, ?_⟩
  · apply view_of_error _ rfl
    rw [herr]
    exact append_ne_empty _ _ (by decide)
  · intro m hm h
    rw [herr, errorDetail_of_str e m hm h]
  · intro h
    rw [herr, errorDetail_of_falsy e h]

/-- C3, amended, at the specification's example: server message "Unauthorized". -/
theorem load_failure_witness :
    (fetchConfirmedRequests_settle (.error (serverError (.str "Unauthorized"))) (mount [])).error
      = "Error fetching confirmed requests: " ++ "Unauthorized" :=
  (load_failure [] (serverError (.str "Unauthorized"))).2.2.2.1 "Unauthorized" (by decide) rfl

/-- C5, at a request on the equator: both coordinates are present and non-null
(latitude 0, longitude 10), yet the map gets no marker and a warning is
logged. -/
theorem markers_zero_latitude :
    countWithCoordinates [sampleRequest "R3" (.num "0") (.num "10")] = 1
    ∧ markers [sampleRequest "R3" (.num "0") (.num "10")] = []
    ∧ (markers [sampleRequest "R3" (.num "0") (.num "10")]).length
        ≠ countWithCoordinates [sampleRequest "R3" (.num "0") (.num "10")]
    ∧ markerWarnings [sampleRequest "R3" (.num "0") (.num "10")]
        = ["Invalid coordinates for request ID: R3"] := by
  decide

/-- C6: in a Ready state, a request whose `addressLat` or `addressLng` is
`undefined` or `null` has its card in the list, at its place, and no marker on
the map; the markers are those of the requests before it followed by those of
the requests after it. -/
theorem missing_coordinate_skipped (w : World) (pre post : List Request) (request : Request)
    (hl : w.isLoading = false) (he : w.error = "")
    (hw : w.requests = pre ++ request :: post)
    (hc : presentNonNull request.addressLat = false ∨ presentNonNull request.addressLng = false) :
    view w = .cards (pre.map cardOf ++ cardOf request :: post.map cardOf)
    ∧ markerChild request = none
    ∧ markerChildren w.requests = markerChildren pre ++ none :: markerChildren post
    ∧ markers w.requests = markers pre ++ markers post
    ∧ markerOf request ∉ markers w.requests := by
  have hf : (request.addressLat.and request.addressLng).truthy = false :=
    and_falsy_of_missing _ _ hc
  have hm : markerChild request = none := by
    simp [markerChild, hf]
  refine ⟨?_, hm, ?_, ?_, ?_⟩
  · unfold view
    simp [hl, he, hw]
  · rw [hw]
    unfold markerChildren
    rw [List.map_append, List.map_cons, hm]
  · rw [hw, markers_append, markers_cons, hm]
  · intro hmem
    have ht := position_truthy_of_mem_markers w.requests (markerOf request) hmem
    have ht2 : (request.addressLat.and request.addressLng).truthy = true := ht
    rw [hf] at ht2
    exact Bool.noConfusion ht2

/-- C6, at the list R1, R3, R2 where R3 has no latitude. -/
theorem missing_coordinate_skipped_witness :
    view (readyWorld [r1, sampleRequest "R3" .undefined (.num "80.5"), r2])
        = .cards ([r1].map cardOf ++ cardOf (sampleRequest "R3" .undefined (.num "80.5")) :: [r2].map cardOf)
    ∧ markers (readyWorld [r1, sampleRequest "R3" .undefined (.num "80.5"), r2]).requests
        = markers [r1] ++ markers [r2] :=
  have h := missing_coordinate_skipped (readyWorld [r1, sampleRequest "R3" .undefined (.num "80.5"), r2])
    [r1] [r2] (sampleRequest "R3" .undefined (.num "80.5")) rfl rfl rfl (Or.inl rfl)
  ⟨h.1, h.2.2.2.1⟩

/-- C7, at the list R1, R2: both completions are started from that list and both
PUTs resolve; whichever resolves last puts back the entry the other one had
removed, so the final list still contains one of the two ids. -/
theorem two_completions_keep_one :
    (completeBothInOrder "R1" "R2" (readyWorld [r1, r2])).requests = [r1]
    ∧ (completeBothReversed "R1" "R2" (readyWorld [r1, r2])).requests = [r2]
    ∧ (completeBothInOrder "R1" "R2" (readyWorld [r1, r2])).requests
        ≠ ((readyWorld [r1, r2]).requests.filter (fun request => request._id != "R1")).filter
            (fun request => request._id != "R2")
    ∧ (completeBothInOrder "R1" "R2" (readyWorld [r1, r2])).alerts
        = ["Request marked as complete", "Request marked as complete"] := by
  decide

/-- C8: each of the three optional fields of a card shows "N/A" when the
request's value is falsy (absent, null, false, a zero, NaN or the empty
string) and the value itself otherwise, a string as its text and a number as
the text it prints as; an absent field reads "N/A" on the page. -/
theorem optional_field_placeholder (request : Request) (f : OptionalField) :
    ((request.field f).truthy = false → (cardOf request).field f = .str "N/A")
    ∧ ((request.field f).truthy = true → (cardOf request).field f = request.field f)
    ∧ ((request.field f).truthy = false ↔
        (request.field f = .undefined ∨ request.field f = .null ∨ request.field f = .bool false
          ∨ request.field f = .num "0" ∨ request.field f = .num "NaN"
          ∨ request.field f = .str ""))
    ∧ (request.field f = .undefined → ((cardOf request).field f).childText = "N/A")
    ∧ ((request.field f).truthy = false → ((cardOf request).field f).childText = "N/A")
    ∧ (∀ s : String, s ≠ "" → request.field f = .str s → ((cardOf request).field f).childText = s)
    ∧ (∀ text : String, text ≠ "0" → text ≠ "NaN" → request.field f = .num text →
        ((cardOf request).field f).childText = text) := by
  have hcard : (cardOf request).field f = (request.field f).or (.str "N/A") := by
    cases f <;> rfl
  rw [hcard]
  refine ⟨?_, ?_, ?_, ?_, ?_, ?_, ?_⟩
  · intro h
    simp [JSVal.or, h]
  · intro h
    simp [JSVal.or, h]
  · cases request.field f with
    | undefined => simp [JSVal.truthy]
    | null => simp [JSVal.truthy]
    | bool b => simp [JSVal.truthy]
    | num text =>
      constructor
      · intro h
        have h1 : (!(text == "0" || text == "NaN")) = false := h
        have h2 : text = "0" ∨ text = "NaN" := by
          by_cases ha : text = "0"
          · exact Or.inl ha
          · by_cases hb : text = "NaN"
            · exact Or.inr hb
            · simp [ha, hb] at h1
        rcases h2 with h2 | h2
        · exact Or.inr (Or.inr (Or.inr (Or.inl (by rw [h2]))))
        · exact Or.inr (Or.inr (Or.inr (Or.inr (Or.inl (by rw [h2])))))
      · intro h
        rcases h with h | h | h | h | h | h
        · exact JSVal.noConfusion h
        · exact JSVal.noConfusion h
        · exact JSVal.noConfusion h
        · rw [h]
          rfl
        · rw [h]
          rfl
        · exact JSVal.noConfusion h
    | str t => simp [JSVal.truthy]
  · intro h
    rw [h]
    rfl
  · intro h
    simp [JSVal.or, h, JSVal.childText]
  · intro t ht h
    rw [h]
    simp [JSVal.or, JSVal.truthy, ht, JSVal.childText]
  · intro t h0 hn h
    rw [h]
    simp [JSVal.or, JSVal.truthy, h0, hn, JSVal.childText]

/-- C8, at a request without `weight` and at a request weighing 2.5. -/
theorem optional_field_placeholder_witness :
    ((cardOf r1).field .weight).childText = "N/A"
    ∧ ((cardOf { r1 with weight := .num "2.5" }).field .weight).childText = "2.5" :=
  ⟨(optional_field_placeholder r1 .weight).2.2.2.1 rfl,
   (optional_field_placeholder { r1 with weight := .num "2.5" } .weight).2.2.2.2.2.2 "2.5"
     (by decide) (by decide) rfl⟩

/-- C10: once `error` is non-empty it stays non-empty through every sequence of
events (settled loads, resolved or rejected completions, clicks, logout); with
`isLoading` false the view then is the error text, with no card, while a later
resolved completion still replaces `requests`. -/
theorem error_never_reset (w : World) (events : List Event) (h : w.error ≠ "") :
    (run w events).error ≠ ""
    ∧ (w.isLoading = false →
        view (run w events) = .errorText (run w events).error
        ∧ (view (run w events)).cardList = [])
    ∧ (∀ p : PendingComplete,
        (run w (events ++ [.completeSettled p (.ok ())])).requests
            = p.requests.filter (fun request => request._id != p.requestId)
        ∧ (run w (events ++ [.completeSettled p (.ok ())])).error ≠ "") := by
  refine ⟨run_error_ne_empty events w h, ?_, ?_⟩
  · intro hl
    have hv := view_of_error (run w events) (run_isLoading_false events w hl)
      (run_error_ne_empty events w h)
    refine ⟨hv, ?_⟩
    rw [hv]
    rfl
  · intro p
    refine ⟨?_, run_error_ne_empty _ w h⟩
    rw [run_append_single]
    rfl

/-- C10, after a failed initial load followed by a completion that resolves. -/
theorem error_never_reset_witness :
    (run (fetchConfirmedRequests_settle (.error networkError) (mount []))
        [.completeSettled ⟨[r1, r2], "R1"⟩ (.ok ())]).error ≠ ""
    ∧ view (run (fetchConfirmedRequests_settle (.error networkError) (mount []))
        [.completeSettled ⟨[r1, r2], "R1"⟩ (.ok ())])
        = .errorText "Error fetching confirmed requests: Network Error" :=
  have h := error_never_reset (fetchConfirmedRequests_settle (.error networkError) (mount []))
    [.completeSettled ⟨[r1, r2], "R1"⟩ (.ok ())] (by decide)
  ⟨h.1, (h.2.1 rfl).1⟩

end CollectorDashboard
